import Mathlib

/-!
Shallow embedding of the git-mirror repository (Rust) in Lean 4,
together with theorems settling the frozen claims about its
natural-language specification.

File map of the source and the corresponding Lean namespaces:
  src/git.rs            -> namespace Gm.git      (GitError, Git, run_cmd, push)
  src/error.rs          -> namespace Gm.err      (GitMirrorError)
  src/provider/mod.rs   -> namespace Gm.prov     (Mirror, MirrorError)
  src/provider/gitlab.rs-> namespace Gm.gitlab   (Desc, Project, get_paged, ...)
  src/provider/github.rs-> namespace Gm.github   (Desc, Project, get_mirror_repos)
  src/lib.rs            -> namespace Gm.lib      (mirror_repo, run_sync_task, ...)
  src/main.rs           -> namespace Gm.main     (the old standalone mirror_repo)

External effects (child processes, the filesystem, HTTP) are modelled by
explicit oracle records passed to the embedded functions; each embedded
function also returns the trace of external operations it attempted, so
that frame / invocation claims are statable.
-/

deriving instance DecidableEq for Except

namespace Gm

namespace git

/-- An error occuring during git command execution, from src/git.rs
(enum GitError): spawn failure, non-zero exit, or timeout. The Rust
io::Error and the timeout Duration are modelled as a String and a Nat. -/
inductive GitError where
  | commandError (cmd_str : String) (err : String)
  | gitCommandError (code : Int) (stderr : String) (cmd_str : String)
  | gitCommandTimeout (cmd_str : String) (timeout : Nat)
  deriving Repr, DecidableEq

/-- Intermediate error of the execution helper, from src/git.rs
(enum CommandExecutionError). -/
inductive CommandExecutionError where
  | systemIOError (e : String)
  | timeoutReachedError (t : Nat)
  deriving Repr, DecidableEq

/-- The captured output of a finished child process (std::process::Output):
exit code (none when killed by a signal), stdout and stderr. -/
structure OutputR where
  exitCode : Option Int
  stdoutStr : String
  stderrStr : String
  deriving Repr, DecidableEq

/-- Oracle describing how the OS runs one child process: whether spawn
fails, how long the child runs, whether the wait / collect / kill system
calls fail, and the output the child finally produces. -/
structure ChildBehavior where
  spawnErr : Option String
  runTime : Nat
  waitErr : Option String
  collectErr : Option String
  killErr : Option String
  output : OutputR
  deriving Repr, DecidableEq

/-- Embeds Git::run_cmd_with_timeout (src/git.rs lines 136-150): spawn with
piped output, wait up to the timeout; on expiry kill the child and report
TimeoutReachedError. The Bool records whether a kill was attempted. -/
def runCmdWithTimeout (timeout : Nat) (b : ChildBehavior) :
    Except CommandExecutionError OutputR × Bool :=
  match b.spawnErr with
  | some e => (.error (.systemIOError e), false)
  | none =>
    match b.waitErr with
    | some e => (.error (.systemIOError e), false)
    | none =>
      if b.runTime ≤ timeout then
        match b.collectErr with
        | some e => (.error (.systemIOError e), false)
        | none => (.ok b.output, false)
      else
        match b.killErr with
        | some e => (.error (.systemIOError e), true)
        | none => (.error (.timeoutReachedError timeout), true)

/-- Embeds the no-timeout branch of Git::run_cmd, i.e. cmd.output()
(src/git.rs line 109): block on the child; any OS error surfaces as an
io::Error. -/
def output_call (b : ChildBehavior) : Except CommandExecutionError OutputR :=
  match b.spawnErr with
  | some e => .error (.systemIOError e)
  | none =>
    match b.waitErr with
    | some e => .error (.systemIOError e)
    | none =>
      match b.collectErr with
      | some e => .error (.systemIOError e)
      | none => .ok b.output

/-- Embeds ExitStatus::success(): the exit code is zero. -/
def status_success (o : OutputR) : Bool := o.exitCode = some 0

/-- Embeds Git::run_cmd (src/git.rs lines 104-134): run the command (with
the configured timeout when present), then map the outcome to GitError:
success on exit 0, GitCommandError on a non-zero exit (code
unwrap_or_default, captured stderr), CommandError on an OS error,
GitCommandTimeout on timeout. The Bool records whether the child was
killed. -/
def runCmd (timeoutCfg : Option Nat) (cmd_str : String) (b : ChildBehavior) :
    Except GitError Unit × Bool :=
  let r : Except CommandExecutionError OutputR × Bool :=
    match timeoutCfg with
    | some t => runCmdWithTimeout t b
    | none => (output_call b, false)
  match r.1 with
  | .ok o =>
    (if status_success o then .ok ()
     else .error (.gitCommandError (o.exitCode.getD 0) o.stderrStr cmd_str), r.2)
  | .error (.systemIOError e) => (.error (.commandError cmd_str e), r.2)
  | .error (.timeoutReachedError t) => (.error (.gitCommandTimeout cmd_str t), r.2)

/-- A child-process command line as assembled through std::process::Command:
program, extra environment entries, arguments in order, and working
directory. -/
structure Cmd where
  program : String
  envs : List (String × String)
  args : List String
  cwd : Option String
  deriving Repr, DecidableEq

/-- Embeds format of a Command (the cmd_str captured for error messages):
the program and each argument quoted, space separated. -/
def Cmd.render (c : Cmd) : String :=
  String.intercalate " " ((c.program :: c.args).map (fun a => "\"" ++ a ++ "\""))

/-- Embeds struct Git (src/git.rs lines 83-87): the executable name, the
backend-global lfs flag, and the optional per-invocation timeout. -/
structure Git where
  executable : String
  lfs_enabled : Bool
  timeout : Option Nat
  deriving Repr, DecidableEq

/-- Embeds Git::git_base_cmd (src/git.rs lines 98-102): a command for the
configured executable with GIT_TERMINAL_PROMPT=0 in its environment. -/
def Git.git_base_cmd (g : Git) : Cmd :=
  { program := g.executable
    envs := [("GIT_TERMINAL_PROMPT", "0")]
    args := []
    cwd := none }

/-- The git lfs install command built by Git::git_push_mirror
(src/git.rs lines 232-235): base command, args lfs install, cwd dir. -/
def Git.lfs_install_cmd (g : Git) (dir : String) : Cmd :=
  { g.git_base_cmd with args := ["lfs", "install"], cwd := some dir }

/-- The push command built by Git::git_push_mirror (src/git.rs lines
239-251): base command in dir with -c lfs.url=dest, push -f, then either
dest followed by each refspec or --mirror dest. -/
def Git.push_cmd (g : Git) (dest dir : String)
    (refspec : Option (List String)) : Cmd :=
  { g.git_base_cmd with
    cwd := some dir
    args := ["-c", "lfs.url=" ++ dest, "push", "-f"] ++
      (match refspec with
       | some r => dest :: r
       | none => ["--mirror", dest]) }

/-- Embeds Git::git_push_mirror (src/git.rs lines 224-253) as a function of
an oracle w giving each command's child behaviour. Returns the run_cmd
outcome together with the list of commands attempted, in order: when the
backend lfs flag and the per-call lfs flag are both set, git lfs install
runs first in the repo dir and a failure aborts; then the push command. -/
def Git.git_push_mirror (g : Git) (w : Cmd → ChildBehavior) (dest dir : String)
    (refspec : Option (List String)) (lfs : Bool) :
    Except GitError Unit × List Cmd :=
  if g.lfs_enabled && lfs then
    match (runCmd g.timeout (g.lfs_install_cmd dir).render
        (w (g.lfs_install_cmd dir))).1 with
    | .error e => (.error e, [g.lfs_install_cmd dir])
    | .ok _ =>
      ((runCmd g.timeout (g.push_cmd dest dir refspec).render
          (w (g.push_cmd dest dir refspec))).1,
        [g.lfs_install_cmd dir, g.push_cmd dest dir refspec])
  else
    ((runCmd g.timeout (g.push_cmd dest dir refspec).render
        (w (g.push_cmd dest dir refspec))).1,
      [g.push_cmd dest dir refspec])

end git

namespace prov

/-- Embeds enum MirrorError (src/provider/mod.rs lines 18-24): a project
description that failed to parse (URL and the serde_yaml error, modelled
as a String), or an explicitly skipped entry (URL). -/
inductive MirrorError where
  | description (url : String) (err : String)
  | skip (url : String)
  deriving Repr, DecidableEq

/-- Embeds struct Mirror (src/provider/mod.rs lines 10-15): a mirror job
from origin to destination with optional refspec list and lfs flag. -/
structure Mirror where
  origin : String
  destination : String
  refspec : Option (List String)
  lfs : Bool
  deriving Repr, DecidableEq

/-- Embeds type MirrorResult (src/provider/mod.rs line 31). -/
abbrev MirrorResult := Except MirrorError Mirror

end prov

namespace err

/-- Embeds enum GitMirrorError (src/error.rs lines 5-15). -/
inductive GitMirrorError where
  | genericError (msg : String)
  | gitError (e : git.GitError)
  | mirrorError (e : prov.MirrorError)
  | syncError (n : Nat)
  deriving Repr, DecidableEq

/-- Embeds the From impl mapping GitMirrorError to a process exit code
(src/error.rs lines 17-26). -/
def GitMirrorError.exit_code : GitMirrorError → Int
  | .syncError _ => 1
  | .genericError _ => 2
  | .gitError _ => 3
  | .mirrorError _ => 4

end err

namespace lib

/-- The fields of MirrorOptions (src/lib.rs lines 264-276) that the
embedded functions consume; paths are modelled as strings, and the
metrics / junit output file paths are omitted (pure output channels). -/
structure MirrorOptions where
  mirror_dir : String
  dry_run : Bool
  worker_count : Nat
  git_executable : String
  refspec : Option (List String)
  remove_workrepo : Bool
  fail_on_sync_error : Bool
  mirror_lfs : Bool
  git_timeout : Option Nat
  deriving Repr, DecidableEq

/-- Modelled from the spec: slugify from the external slug crate (a
collaborator, not code of this repository). Per the spec's slug rule the
origin URL is lowercased, every run of non-alphanumeric characters is
replaced by a single hyphen, and hyphens are trimmed at both ends. -/
def slugify (s : String) : String :=
  String.intercalate "-"
    (((s.map Char.toLower).split (fun c => !c.isAlphanum)).filter (fun w => w ≠ ""))

/-- The kind of filesystem object found at the job's local path. -/
inductive PathKind where
  | dir
  | missing
  | file
  deriving Repr, DecidableEq

/-- External operations a job can perform, for invocation and frame
claims: the five backend calls of the GitWrapper trait plus
fs::remove_dir_all. -/
inductive Op where
  | git_version
  | git_lfs_version
  | update_mirror
  | clone_mirror
  | push_mirror
  | remove_dir_all
  deriving Repr, DecidableEq

/-- Oracle for one job's interaction with the git backend (an arbitrary
GitWrapper instance, which is all lib.rs sees) and the filesystem: the
result each backend call returns if invoked, the kind of the local path,
and the result of fs::remove_dir_all (io::Error as String). -/
structure JobWorld where
  version_res : Except git.GitError Unit
  lfs_version_res : Except git.GitError Unit
  update_res : Except git.GitError Unit
  clone_res : Except git.GitError Unit
  push_res : Except git.GitError Unit
  path_kind : PathKind
  remove_res : Except String Unit
  deriving Repr, DecidableEq

/-- Embeds mirror_repo (src/lib.rs lines 48-103) over the JobWorld oracle.
Returns the function result together with the ordered list of external
operations invoked. Dry runs return Ok at once; otherwise the backend is
probed (git version, and git lfs version when mirror_lfs is set), the
local path is classified (directory: update, absent: clone, otherwise a
GenericError), the push runs, and when remove_workrepo is set the working
directory is removed, a removal failure becoming a GenericError. -/
def mirror_repo (origin destination : String) (refspec : Option (List String))
    (lfs : Bool) (opts : MirrorOptions) (w : JobWorld) :
    Except err.GitMirrorError Unit × List Op :=
  if opts.dry_run then (.ok (), [])
  else
    let origin_dir := opts.mirror_dir ++ "/" ++ slugify origin
    match w.version_res with
    | .error e => (.error (.gitError e), [.git_version])
    | .ok _ =>
      let probe_ops : List Op :=
        if opts.mirror_lfs then [.git_version, .git_lfs_version] else [.git_version]
      let probe_res : Except err.GitMirrorError Unit :=
        if opts.mirror_lfs then
          match w.lfs_version_res with
          | .error e => .error (.gitError e)
          | .ok _ => .ok ()
        else .ok ()
      match probe_res with
      | .error e => (.error e, probe_ops)
      | .ok _ =>
        let finish : List Op → Except err.GitMirrorError Unit × List Op := fun ops =>
          match w.push_res with
          | .error e => (.error (.gitError e), ops ++ [.push_mirror])
          | .ok _ =>
            if opts.remove_workrepo then
              match w.remove_res with
              | .error e =>
                (.error (.genericError
                  ("Unable to delete working repository: " ++ origin_dir ++
                    " because of error: " ++ e)),
                  ops ++ [.push_mirror, .remove_dir_all])
              | .ok _ => (.ok (), ops ++ [.push_mirror, .remove_dir_all])
            else (.ok (), ops ++ [.push_mirror])
        match w.path_kind with
        | .dir =>
          match w.update_res with
          | .error e => (.error (.gitError e), probe_ops ++ [.update_mirror])
          | .ok _ => finish (probe_ops ++ [.update_mirror])
        | .missing =>
          match w.clone_res with
          | .error e => (.error (.gitError e), probe_ops ++ [.clone_mirror])
          | .ok _ => finish (probe_ops ++ [.clone_mirror])
        | .file =>
          (.error (.genericError ("Local origin dir is a file: " ++ origin_dir)),
            probe_ops)

/-- The junit test-case kinds produced by run_sync_task (success record,
error record with its type label, failure record, skipped record); the
duration and detail text are not modelled. -/
inductive TestCaseKind where
  | success
  | error (typ : String)
  | failure
  | skipped
  deriving Repr, DecidableEq

/-- A junit test case: its name and kind. For skipped cases the name is
the skipped project URL; for parse errors it is empty. -/
structure TestCase where
  name : String
  kind : TestCaseKind
  deriving Repr, DecidableEq

/-- The per-run metric counters registered in run_sync_task
(src/lib.rs lines 112-119): git_mirror_total, _skip, _fail, _timeout,
_ok, for one label. -/
structure Counters where
  total : Nat
  skip : Nat
  fail : Nat
  timeout : Nat
  ok : Nat
  deriving Repr, DecidableEq

/-- One provider entry together with the oracle for executing it. -/
structure Job where
  entry : prov.MirrorResult
  world : JobWorld
  deriving Repr

/-- Embeds the timeout test of src/lib.rs lines 205-213: the sync error is
a GitError whose inner error is GitCommandTimeout. -/
def is_timeout_err : err.GitMirrorError → Bool
  | .gitError (.gitCommandTimeout _ _) => true
  | _ => false

/-- Terminal classification of one job: which counter run_sync_task bumps
besides total. -/
inductive Cls where
  | ok
  | fail
  | timeout
  | skip
  deriving Repr, DecidableEq

/-- Embeds the body of the per-entry closure of run_sync_task
(src/lib.rs lines 137-247): resolve the effective refspec (the job's own,
else the global one), run mirror_repo, and produce the terminal counter
classification and the junit test case. Skip and Description entries both
classify as skip; a sync error classifies as timeout exactly when its
root cause is a git timeout. -/
def classify (opts : MirrorOptions) (j : Job) : Cls × TestCase :=
  match j.entry with
  | .ok x =>
    let name := x.origin ++ " -> " ++ x.destination
    let refspec := match x.refspec with
      | some _ => x.refspec
      | none => opts.refspec
    match (mirror_repo x.origin x.destination refspec x.lfs opts j.world).1 with
    | .ok _ => (.ok, ⟨name, .success⟩)
    | .error e =>
      (if is_timeout_err e then .timeout else .fail, ⟨name, .error "sync error"⟩)
  | .error (.description _ _) => (.skip, ⟨"", .error "parse error"⟩)
  | .error (.skip url) => (.skip, ⟨url, .skipped⟩)

/-- One job's counter contribution: total is bumped at START, then exactly
one of ok, fail, timeout, skip at terminal classification. -/
def bump (c : Counters) : Cls → Counters
  | .ok => { c with total := c.total + 1, ok := c.ok + 1 }
  | .fail => { c with total := c.total + 1, fail := c.fail + 1 }
  | .timeout => { c with total := c.total + 1, timeout := c.timeout + 1 }
  | .skip => { c with total := c.total + 1, skip := c.skip + 1 }

/-- Embeds run_sync_task (src/lib.rs lines 105-262): every entry is
processed to exactly one test case, and the counters accumulate each
job's contribution. -/
def run_sync_task (opts : MirrorOptions) (v : List Job) :
    Counters × List TestCase :=
  (v.foldl (fun c j => bump c (classify opts j).1) ⟨0, 0, 0, 0, 0⟩,
    v.map (fun j => (classify opts j).2))

/-- Embeds TestSuite::errors(): the number of error-kind test cases. -/
def suite_errors (ts : List TestCase) : Nat :=
  (ts.filter (fun t => match t.kind with | .error _ => true | _ => false)).length

/-- Embeds TestSuite::failures(): the number of failure-kind test cases. -/
def suite_failures (ts : List TestCase) : Nat :=
  (ts.filter (fun t => t.kind = .failure)).length

/-- Embeds the decision tail of do_mirror (src/lib.rs lines 339-351),
reached when directory creation, locking and provider enumeration
succeed: run the sync task, count suite errors plus failures, and return
SyncError when fail_on_sync_error is set and the count is positive. -/
def do_mirror_result (opts : MirrorOptions) (v : List Job) :
    Except err.GitMirrorError Unit :=
  let ts := (run_sync_task opts v).2
  let error_count := suite_errors ts + suite_failures ts
  if opts.fail_on_sync_error ∧ 0 < error_count then
    .error (.syncError error_count)
  else
    .ok ()

end lib

namespace yaml

/-- A parsed YAML scalar or list value, sufficient for the Desc structs
the providers deserialize through serde_yaml. -/
inductive YVal where
  | ystr (v : String)
  | ybool (v : Bool)
  | ylist (v : List String)
  deriving Repr, DecidableEq

/-- A parsed YAML mapping from field names to values. -/
abbrev YMap := List (String × YVal)

/-- A free-text description field as serde_yaml::from_str sees it: either
not a YAML mapping at all (carrying the parser's message) or a parsed
mapping. -/
inductive YDoc where
  | malformed (err : String)
  | mapping (m : YMap)
  deriving Repr, DecidableEq

/-- Look up a field of a YAML mapping. -/
def ylookup (m : YMap) (k : String) : Option YVal :=
  (m.find? (fun p => p.1 = k)).map (fun p => p.2)

/-- Models serde deserialization of a required String field: absent or
non-string values fail. -/
def req_string (m : YMap) (k : String) : Except String String :=
  match ylookup m k with
  | some (.ystr v) => .ok v
  | some _ => .error ("invalid type for field " ++ k)
  | none => .error ("missing field " ++ k)

/-- Models serde deserialization of a Bool field with a serde default:
absent values take the default, non-bool values fail. -/
def bool_field (m : YMap) (k : String) (dflt : Bool) : Except String Bool :=
  match ylookup m k with
  | some (.ybool v) => .ok v
  | some _ => .error ("invalid type for field " ++ k)
  | none => .ok dflt

/-- Models serde deserialization of an Option list-of-strings field:
absent means none, non-list values fail. -/
def opt_list_field (m : YMap) (k : String) : Except String (Option (List String)) :=
  match ylookup m k with
  | some (.ylist v) => .ok (some v)
  | some _ => .error ("invalid type for field " ++ k)
  | none => .ok none

end yaml

namespace gitlab

/-- Embeds struct Desc of src/provider/gitlab.rs lines 28-35: origin
(required), skip (serde default false), flat (serde default false). This
Desc has no refspec field and no lfs field. -/
structure Desc where
  origin : String
  skip : Bool
  flat : Bool
  deriving Repr, DecidableEq

/-- Embeds serde_yaml::from_str::<Desc> on a description document: field
extraction with serde defaults; unknown keys are ignored (serde's
default behaviour). -/
def parse_desc : yaml.YDoc → Except String Desc
  | .malformed e => .error e
  | .mapping m => do
    let origin ← yaml.req_string m "origin"
    let skip ← yaml.bool_field m "skip" false
    let flat ← yaml.bool_field m "flat" false
    .ok ⟨origin, skip, flat⟩

/-- Embeds struct Project of src/provider/gitlab.rs lines 38-44, the
description given as the YAML layer's view of the free text. -/
structure Project where
  description : yaml.YDoc
  web_url : String
  ssh_url_to_repo : String
  http_url_to_repo : String
  deriving Repr, DecidableEq

/-- Embeds struct Mirror as constructed by this provider file
(src/provider/gitlab.rs lines 213-217): origin, destination and the flat
flag. -/
structure Mirror where
  origin : String
  destination : String
  flat : Bool
  deriving Repr, DecidableEq

/-- Embeds the per-project loop of GitLab::get_mirror_repos
(src/provider/gitlab.rs lines 196-224): skip=true gives a Skip entry with
the project web URL; parse success gives a Mirror whose destination is
the HTTP clone URL when use_http is set, else the SSH URL; a parse
failure gives a Description entry with the web URL and the cause. -/
def process_projects (use_http : Bool) (projects : List Project) :
    List (Except prov.MirrorError Mirror) :=
  projects.map (fun p =>
    match parse_desc p.description with
    | .ok desc =>
      if desc.skip then .error (.skip p.web_url)
      else
        let destination := if use_http then p.http_url_to_repo else p.ssh_url_to_repo
        .ok { origin := desc.origin, destination := destination, flat := desc.flat }
    | .error e => .error (.description p.web_url e))

/-- One HTTP response as the pagination loop consumes it: status code, the
x-next-page header when present, and the parse result of the body as a
JSON list. -/
structure Response (α : Type) where
  status : Nat
  x_next_page : Option String
  body : Except String (List α)

/-- Embeds the URL built for each page request (PER_PAGE is 100):
url?per_page=100&page=N. -/
def page_url (url : String) (page : Nat) : String :=
  url ++ "?per_page=100&page=" ++ toString page

/-- Embeds the loop of GitLab::get_paged (src/provider/gitlab.rs lines
62-118) over a fetch oracle mapping each page number to its connection
result. The fuel counts the remaining iterations of the Rust range
1..u32::MAX; the second component records the URL of every request
made, in order. A non-OK status or an unparsable body aborts with an
error; otherwise the page's items are appended and the loop continues
exactly when the x-next-page header is present and non-empty. -/
def get_paged_go {α : Type} (url : String)
    (fetch : Nat → Except String (Response α)) :
    Nat → Nat → Except String (List α) × List String
  | 0, _ => (.ok [], [])
  | fuel+1, page =>
    let u := page_url url page
    match fetch page with
    | .error e =>
      (.error ("Unable to connect to: " ++ u ++ " (" ++ e ++ ")"), [u])
    | .ok res =>
      if res.status ≠ 200 then
        (if res.status = 401 then
          .error ("API call received unautorized (" ++ toString res.status ++
            ") for: " ++ u ++
            ". Please make sure the GITLAB_PRIVATE_TOKEN environment variable is set.")
        else
          .error ("API call received invalid status (" ++ toString res.status ++
            ") for : " ++ u), [u])
      else
        let has_next : Bool := match res.x_next_page with
          | none => false
          | some n => !(n = "")
        match res.body with
        | .error e =>
          (.error ("Unable to parse response as JSON (" ++ e ++ ")"), [u])
        | .ok results_page =>
          if has_next then
            match get_paged_go url fetch fuel (page + 1) with
            | (.ok rest, urls) => (.ok (results_page ++ rest), u :: urls)
            | (.error e, urls) => (.error e, u :: urls)
          else
            (.ok results_page, [u])

/-- Embeds u32::MAX. -/
def u32_max : Nat := 4294967295

/-- Embeds GitLab::get_paged (src/provider/gitlab.rs lines 56-120): the
loop for page in 1..u32::MAX runs at most u32::MAX - 1 iterations,
starting at page 1. -/
def get_paged {α : Type} (url : String)
    (fetch : Nat → Except String (Response α)) :
    Except String (List α) × List String :=
  get_paged_go url fetch (u32_max - 1) 1

end gitlab

namespace github

/-- Embeds struct Desc of src/provider/github.rs lines 36-41: origin
(required) and skip (serde default false). -/
structure Desc where
  origin : String
  skip : Bool
  deriving Repr, DecidableEq

/-- Embeds serde_yaml::from_str::<Desc> for the GitHub Desc. -/
def parse_desc : yaml.YDoc → Except String Desc
  | .malformed e => .error e
  | .mapping m => do
    let origin ← yaml.req_string m "origin"
    let skip ← yaml.bool_field m "skip" false
    .ok ⟨origin, skip⟩

/-- Embeds struct Project of src/provider/github.rs lines 44-50: the
description field is optional. -/
structure Project where
  description : Option yaml.YDoc
  url : String
  ssh_url : String
  clone_url : String
  deriving Repr, DecidableEq

/-- Embeds struct Mirror as used by this provider file: origin and
destination only. -/
structure Mirror where
  origin : String
  destination : String
  deriving Repr, DecidableEq

/-- Embeds the per-project loop of GitHub::get_mirror_repos
(src/provider/github.rs lines 104-124): the description (empty mapping
when absent, per unwrap_or_default) is parsed; a skip flag or a parse
failure only logs a warning and produces no entry at all; parse success
gives a Mirror whose destination is the clone URL when use_http is set,
else the SSH URL. -/
def process_projects (use_http : Bool) (projects : List Project) : List Mirror :=
  projects.filterMap (fun p =>
    match parse_desc (p.description.getD (.mapping [])) with
    | .ok desc =>
      if desc.skip then none
      else some
        { origin := desc.origin
          destination := if use_http then p.clone_url else p.ssh_url }
    | .error _ => none)

/-- Embeds GitHub::get_mirror_repos (src/provider/github.rs lines 54-125)
given the outcome of the single catalog request (connection, status and
JSON decoding failures collapsed into the error string): the run fails
only when that request fails, never because of a project description. -/
def get_mirror_repos (use_http : Bool)
    (fetched : Except String (List Project)) : Except String (List Mirror) :=
  match fetched with
  | .error e => .error e
  | .ok projects => .ok (process_projects use_http projects)

end github

namespace main

/-- The captured outcome of one Command::output() call in main.rs: either
a spawn error, or the finished output with its status success flag and a
display string for the exit status. -/
structure MOut where
  spawn_err : Option String
  success : Bool
  status_str : String
  deriving Repr, DecidableEq

/-- The git commands main.rs's mirror_repo can run. -/
inductive MOp where
  | set_url
  | remote_update
  | clone
  | push
  deriving Repr, DecidableEq

/-- Oracle for one main.rs mirror_repo call: the DirBuilder result, the
local path kind, and each git command's outcome. -/
structure MainWorld where
  dir_create_err : Option String
  path_kind : lib.PathKind
  set_url : MOut
  remote_update : MOut
  clone : MOut
  push : MOut
  deriving Repr, DecidableEq

/-- Embeds mirror_repo of src/main.rs lines 141-269, faithfully keeping
the check at line 201 where, after git remote update produced out2, the
code tests out.status (the set-url command's status) instead of
out2.status. Returns the result and the ordered list of commands run. -/
def mirror_repo (mirror_dir origin destination : String) (w : MainWorld) :
    Except String Nat × List MOp :=
  match w.dir_create_err with
  | some e =>
    (.error ("Unable to create mirror dir: " ++ mirror_dir ++ " (" ++ e ++ ")"), [])
  | none =>
    let sync : Except String Unit × List MOp :=
      match w.path_kind with
      | .dir =>
        match w.set_url.spawn_err with
        | some e =>
          (.error ("Unable to execute set url command: (" ++ e ++ ")"), [.set_url])
        | none =>
          if !w.set_url.success then
            (.error ("Set url command failed with exit code: " ++ w.set_url.status_str),
              [.set_url])
          else
            match w.remote_update.spawn_err with
            | some e =>
              (.error ("Unable to execute remote update command: (" ++ e ++ ")"),
                [.set_url, .remote_update])
            | none =>
              if !w.set_url.success then
                (.error ("Remote update command failed with exit code: " ++
                  w.remote_update.status_str), [.set_url, .remote_update])
              else (.ok (), [.set_url, .remote_update])
      | .missing =>
        match w.clone.spawn_err with
        | some e =>
          (.error ("Unable to execute clone command: (" ++ e ++ ")"), [.clone])
        | none =>
          if !w.clone.success then
            (.error ("Clone command failed with exit code: " ++ w.clone.status_str),
              [.clone])
          else (.ok (), [.clone])
      | .file =>
        (.error ("Local origin dir is a file: " ++ mirror_dir ++ "/" ++
          lib.slugify origin), [])
    match sync.1 with
    | .error e => (.error e, sync.2)
    | .ok _ =>
      match w.push.spawn_err with
      | some e =>
        (.error ("Unable to execute push command: (" ++ e ++ ")"), sync.2 ++ [.push])
      | none =>
        if !w.push.success then
          (.error ("Push command failed with exit code: " ++ w.push.status_str),
            sync.2 ++ [.push])
        else (.ok 1, sync.2 ++ [.push])

end main

namespace ex

/-- Sample options: a non-dry run with one worker and cleanup enabled. -/
def opts_plain : lib.MirrorOptions :=
  { mirror_dir := "/m", dry_run := false, worker_count := 1,
    git_executable := "git", refspec := none, remove_workrepo := true,
    fail_on_sync_error := false, mirror_lfs := false, git_timeout := none }

/-- Sample options: a dry run. -/
def opts_dry : lib.MirrorOptions := { opts_plain with dry_run := true }

/-- Sample options: fail_on_sync_error set. -/
def opts_fose : lib.MirrorOptions := { opts_plain with fail_on_sync_error := true }

/-- Sample job world where every operation succeeds on an existing
directory. -/
def w_ok : lib.JobWorld :=
  { version_res := .ok (), lfs_version_res := .ok (), update_res := .ok (),
    clone_res := .ok (), push_res := .ok (), path_kind := .dir,
    remove_res := .ok () }

end ex

end Gm

/-- Claim C9: if dry_run is true, mirror_repo returns Success for every
job immediately: no git backend operation is invoked and nothing under
mirror_dir is touched — the operation trace is empty. -/
theorem c9_dry_run_success_no_effects (origin destination : String)
    (refspec : Option (List String)) (lfs : Bool)
    (opts : Gm.lib.MirrorOptions) (w : Gm.lib.JobWorld)
    (h : opts.dry_run = true) :
    Gm.lib.mirror_repo origin destination refspec lfs opts w = (.ok (), []) := by
  simp [Gm.lib.mirror_repo, h]

/-- Witness for C9 at a concrete dry-run job. -/
theorem c9_dry_run_success_no_effects_witness :
    Gm.ex.opts_dry.dry_run = true ∧
    Gm.lib.mirror_repo "ssh://u@a/x.git" "ssh://u@b/x.git" none false
      Gm.ex.opts_dry Gm.ex.w_ok = (.ok (), []) :=
  ⟨by decide,
    c9_dry_run_success_no_effects "ssh://u@a/x.git" "ssh://u@b/x.git" none false
      Gm.ex.opts_dry Gm.ex.w_ok (by decide)⟩

/-- Claim C1: for a job run with dry_run false (and the backend probes
succeeding), mirror_repo classifies the local path mirror_dir/slug(origin):
a directory runs update_mirror and never clone_mirror; an absent path runs
clone_mirror and never update_mirror; a file yields a GenericError saying
the local origin dir is a file without invoking clone, update or push.
After a successful sync and push, when remove_workrepo is set the path is
removed recursively, and a removal failure is a GenericError for the
job. -/
theorem c1_mirror_repo_classification (origin destination : String)
    (refspec : Option (List String)) (lfs : Bool)
    (opts : Gm.lib.MirrorOptions) (w : Gm.lib.JobWorld)
    (hdry : opts.dry_run = false)
    (hver : w.version_res = .ok ())
    (hlfs : opts.mirror_lfs = true → w.lfs_version_res = .ok ()) :
    (w.path_kind = .dir →
      Gm.lib.Op.update_mirror ∈
        (Gm.lib.mirror_repo origin destination refspec lfs opts w).2 ∧
      Gm.lib.Op.clone_mirror ∉
        (Gm.lib.mirror_repo origin destination refspec lfs opts w).2) ∧
    (w.path_kind = .missing →
      Gm.lib.Op.clone_mirror ∈
        (Gm.lib.mirror_repo origin destination refspec lfs opts w).2 ∧
      Gm.lib.Op.update_mirror ∉
        (Gm.lib.mirror_repo origin destination refspec lfs opts w).2) ∧
    (w.path_kind = .file →
      (Gm.lib.mirror_repo origin destination refspec lfs opts w).1 =
        .error (.genericError ("Local origin dir is a file: " ++
          (opts.mirror_dir ++ "/" ++ Gm.lib.slugify origin))) ∧
      Gm.lib.Op.clone_mirror ∉
        (Gm.lib.mirror_repo origin destination refspec lfs opts w).2 ∧
      Gm.lib.Op.update_mirror ∉
        (Gm.lib.mirror_repo origin destination refspec lfs opts w).2 ∧
      Gm.lib.Op.push_mirror ∉
        (Gm.lib.mirror_repo origin destination refspec lfs opts w).2) ∧
    ((w.path_kind = .dir ∧ w.update_res = .ok ()) ∨
        (w.path_kind = .missing ∧ w.clone_res = .ok ()) →
      w.push_res = .ok () →
      opts.remove_workrepo = true →
      (w.remove_res = .ok () →
        (Gm.lib.mirror_repo origin destination refspec lfs opts w).1 = .ok () ∧
        Gm.lib.Op.remove_dir_all ∈
          (Gm.lib.mirror_repo origin destination refspec lfs opts w).2) ∧
      (∀ s, w.remove_res = .error s →
        (Gm.lib.mirror_repo origin destination refspec lfs opts w).1 =
          .error (.genericError ("Unable to delete working repository: " ++
            (opts.mirror_dir ++ "/" ++ Gm.lib.slugify origin) ++
            " because of error: " ++ s)))) := by
  obtain ⟨md, dr, wc, ge, rs, rwk, fo, ml, gt⟩ := opts
  obtain ⟨vres, lres, ures, cres, pres, pk, rres⟩ := w
  simp only at hdry hver hlfs ⊢
  subst hdry
  subst hver
  cases ml with
  | false =>
    cases pk <;> cases ures <;> cases cres <;> cases pres <;>
      cases rwk <;> cases rres <;>
      simp_all [Gm.lib.mirror_repo]
  | true =>
    have hl : lres = .ok () := hlfs rfl
    subst hl
    cases pk <;> cases ures <;> cases cres <;> cases pres <;>
      cases rwk <;> cases rres <;>
      simp_all [Gm.lib.mirror_repo]

/-- Witness for C1 at a concrete job: an existing directory, all backend
calls succeeding, remove_workrepo set. -/
theorem c1_mirror_repo_classification_witness :
    Gm.ex.opts_plain.dry_run = false ∧
    ((Gm.ex.w_ok.path_kind = .dir →
      Gm.lib.Op.update_mirror ∈
        (Gm.lib.mirror_repo "o" "d" none false Gm.ex.opts_plain Gm.ex.w_ok).2 ∧
      Gm.lib.Op.clone_mirror ∉
        (Gm.lib.mirror_repo "o" "d" none false Gm.ex.opts_plain Gm.ex.w_ok).2) ∧
    (Gm.ex.w_ok.path_kind = .missing →
      Gm.lib.Op.clone_mirror ∈
        (Gm.lib.mirror_repo "o" "d" none false Gm.ex.opts_plain Gm.ex.w_ok).2 ∧
      Gm.lib.Op.update_mirror ∉
        (Gm.lib.mirror_repo "o" "d" none false Gm.ex.opts_plain Gm.ex.w_ok).2) ∧
    (Gm.ex.w_ok.path_kind = .file →
      (Gm.lib.mirror_repo "o" "d" none false Gm.ex.opts_plain Gm.ex.w_ok).1 =
        .error (.genericError ("Local origin dir is a file: " ++
          (Gm.ex.opts_plain.mirror_dir ++ "/" ++ Gm.lib.slugify "o"))) ∧
      Gm.lib.Op.clone_mirror ∉
        (Gm.lib.mirror_repo "o" "d" none false Gm.ex.opts_plain Gm.ex.w_ok).2 ∧
      Gm.lib.Op.update_mirror ∉
        (Gm.lib.mirror_repo "o" "d" none false Gm.ex.opts_plain Gm.ex.w_ok).2 ∧
      Gm.lib.Op.push_mirror ∉
        (Gm.lib.mirror_repo "o" "d" none false Gm.ex.opts_plain Gm.ex.w_ok).2) ∧
    ((Gm.ex.w_ok.path_kind = .dir ∧ Gm.ex.w_ok.update_res = .ok ()) ∨
        (Gm.ex.w_ok.path_kind = .missing ∧ Gm.ex.w_ok.clone_res = .ok ()) →
      Gm.ex.w_ok.push_res = .ok () →
      Gm.ex.opts_plain.remove_workrepo = true →
      (Gm.ex.w_ok.remove_res = .ok () →
        (Gm.lib.mirror_repo "o" "d" none false Gm.ex.opts_plain Gm.ex.w_ok).1 =
          .ok () ∧
        Gm.lib.Op.remove_dir_all ∈
          (Gm.lib.mirror_repo "o" "d" none false Gm.ex.opts_plain Gm.ex.w_ok).2) ∧
      (∀ s, Gm.ex.w_ok.remove_res = .error s →
        (Gm.lib.mirror_repo "o" "d" none false Gm.ex.opts_plain Gm.ex.w_ok).1 =
          .error (.genericError ("Unable to delete working repository: " ++
            (Gm.ex.opts_plain.mirror_dir ++ "/" ++ Gm.lib.slugify "o") ++
            " because of error: " ++ s))))) :=
  ⟨by decide,
    c1_mirror_repo_classification "o" "d" none false Gm.ex.opts_plain Gm.ex.w_ok
      (by decide) (by decide) (by decide)⟩

/-- Claim C4: every failing git invocation yields exactly one of the three
GitError kinds, each carrying the command string (and a Timeout only when
a timeout was configured, carrying that duration); a non-zero exit yields
GitCommandError with the exit code and captured stderr; when a configured
timeout elapses before the child completes, the child is killed (second
component true) and GitCommandTimeout with the command string and the
timeout duration is returned; and an OS spawn failure yields CommandError
with the command string and the OS error. -/
theorem c4_git_error_kinds :
    (∀ (cfg : Option Nat) (cmd_str : String) (b : Gm.git.ChildBehavior)
        (e : Gm.git.GitError),
      (Gm.git.runCmd cfg cmd_str b).1 = .error e →
      match e with
      | .commandError c _ => c = cmd_str
      | .gitCommandError _ _ c => c = cmd_str
      | .gitCommandTimeout c t => c = cmd_str ∧ cfg = some t) ∧
    (∀ (cmd_str : String) (b : Gm.git.ChildBehavior) (code : Int),
      b.spawnErr = none → b.waitErr = none → b.collectErr = none →
      b.output.exitCode = some code → code ≠ 0 →
      (Gm.git.runCmd none cmd_str b).1 =
        .error (.gitCommandError code b.output.stderrStr cmd_str)) ∧
    (∀ (t : Nat) (cmd_str : String) (b : Gm.git.ChildBehavior),
      b.spawnErr = none → b.waitErr = none → t < b.runTime → b.killErr = none →
      Gm.git.runCmd (some t) cmd_str b =
        (.error (.gitCommandTimeout cmd_str t), true)) ∧
    (∀ (cfg : Option Nat) (cmd_str : String) (b : Gm.git.ChildBehavior)
        (s : String),
      b.spawnErr = some s →
      (Gm.git.runCmd cfg cmd_str b).1 = .error (.commandError cmd_str s)) := by
  refine ⟨?_, ?_, ?_, ?_⟩
  · intro cfg cmd_str b e h
    obtain ⟨sp, rt, we, ce, ke, o⟩ := b
    rcases cfg with _ | t <;>
      rcases sp with _ | s1 <;> rcases we with _ | s2 <;> rcases ce with _ | s3 <;>
      rcases ke with _ | s4 <;>
      (try by_cases hrt : rt ≤ t) <;>
      by_cases hoc : o.exitCode = some 0 <;>
      simp_all [Gm.git.runCmd, Gm.git.runCmdWithTimeout, Gm.git.output_call,
        Gm.git.status_success] <;>
      (try subst h) <;> (try simp)
  · intro cmd_str b code hs hw hc hcode hnz
    obtain ⟨sp, rt, we, ce, ke, o⟩ := b
    simp_all [Gm.git.runCmd, Gm.git.output_call, Gm.git.status_success]
  · intro t cmd_str b hs hw hrt hk
    obtain ⟨sp, rt, we, ce, ke, o⟩ := b
    simp_all [Gm.git.runCmd, Gm.git.runCmdWithTimeout, Nat.not_le.mpr hrt]
  · intro cfg cmd_str b s hs
    obtain ⟨sp, rt, we, ce, ke, o⟩ := b
    rcases cfg with _ | t <;>
      simp_all [Gm.git.runCmd, Gm.git.runCmdWithTimeout, Gm.git.output_call]

/-- Sample child behaviour: the child exits with code 1 and stderr
"remote rejected". -/
def Gm.ex.b_exit1 : Gm.git.ChildBehavior :=
  { spawnErr := none, runTime := 0, waitErr := none, collectErr := none,
    killErr := none, output := ⟨some 1, "", "remote rejected"⟩ }

/-- Sample child behaviour: the child needs 5 time units and would exit
cleanly. -/
def Gm.ex.b_slow : Gm.git.ChildBehavior :=
  { spawnErr := none, runTime := 5, waitErr := none, collectErr := none,
    killErr := none, output := ⟨some 0, "", ""⟩ }

/-- Witness for C4: a concrete non-zero exit yields GitCommandError with
code and stderr, and a concrete 1-unit timeout on a 5-unit child kills it
and yields GitCommandTimeout. -/
theorem c4_git_error_kinds_witness :
    (Gm.git.runCmd none "git push" Gm.ex.b_exit1).1 =
      .error (.gitCommandError 1 "remote rejected" "git push") ∧
    Gm.git.runCmd (some 1) "git clone" Gm.ex.b_slow =
      (.error (.gitCommandTimeout "git clone" 1), true) :=
  ⟨c4_git_error_kinds.2.1 "git push" Gm.ex.b_exit1 1 rfl rfl rfl rfl (by decide),
    c4_git_error_kinds.2.2.1 1 "git clone" Gm.ex.b_slow rfl rfl (by decide) rfl⟩

/-- Claim C6: for every push_mirror call, when lfs applies (backend flag
and per-call flag both set) git lfs install is run first in the repo dir
and, when it succeeds, the push command runs after it and decides the
call's result; the push command carries -c lfs.url=dest and runs in dir;
with a refspec list its arguments are push -f dest spec1 spec2 ..., and
without one they are push -f --mirror dest; when lfs does not apply only
the push command runs. -/
theorem c6_push_mirror_commands (g : Gm.git.Git)
    (w : Gm.git.Cmd → Gm.git.ChildBehavior) (dest dir : String)
    (refspec : Option (List String)) (lfs : Bool) :
    ((g.lfs_enabled && lfs) = false →
      (Gm.git.Git.git_push_mirror g w dest dir refspec lfs).2 =
        [g.push_cmd dest dir refspec]) ∧
    ((g.lfs_enabled && lfs) = true →
      (Gm.git.Git.git_push_mirror g w dest dir refspec lfs).2 =
        [g.lfs_install_cmd dir] ∨
      (Gm.git.Git.git_push_mirror g w dest dir refspec lfs).2 =
        [g.lfs_install_cmd dir, g.push_cmd dest dir refspec]) ∧
    ((g.lfs_enabled && lfs) = true →
      (Gm.git.runCmd g.timeout (g.lfs_install_cmd dir).render
        (w (g.lfs_install_cmd dir))).1 = .ok () →
      Gm.git.Git.git_push_mirror g w dest dir refspec lfs =
        ((Gm.git.runCmd g.timeout (g.push_cmd dest dir refspec).render
          (w (g.push_cmd dest dir refspec))).1,
          [g.lfs_install_cmd dir, g.push_cmd dest dir refspec])) ∧
    (∀ rr, refspec = some rr →
      (g.push_cmd dest dir refspec).args =
        ["-c", "lfs.url=" ++ dest, "push", "-f", dest] ++ rr) ∧
    (refspec = none →
      (g.push_cmd dest dir refspec).args =
        ["-c", "lfs.url=" ++ dest, "push", "-f", "--mirror", dest]) ∧
    (g.lfs_install_cmd dir).args = ["lfs", "install"] ∧
    (g.lfs_install_cmd dir).cwd = some dir ∧
    (g.push_cmd dest dir refspec).cwd = some dir := by
  refine ⟨?_, ?_, ?_, ?_, ?_, ?_, ?_, ?_⟩
  · intro hl
    simp [Gm.git.Git.git_push_mirror, hl]
  · intro hl
    rcases hrun : (Gm.git.runCmd g.timeout (g.lfs_install_cmd dir).render
        (w (g.lfs_install_cmd dir))).1 with e | u
    · left
      simp [Gm.git.Git.git_push_mirror, hl, hrun]
    · right
      simp [Gm.git.Git.git_push_mirror, hl, hrun]
  · intro hl hok
    simp [Gm.git.Git.git_push_mirror, hl, hok]
  · intro rr hr
    simp [Gm.git.Git.push_cmd, hr]
  · intro hr
    simp [Gm.git.Git.push_cmd, hr]
  · simp [Gm.git.Git.lfs_install_cmd]
  · simp [Gm.git.Git.lfs_install_cmd]
  · simp [Gm.git.Git.push_cmd]

/-- Sample child behaviour: the child exits immediately with code 0. -/
def Gm.ex.b_ok : Gm.git.ChildBehavior :=
  { spawnErr := none, runTime := 0, waitErr := none, collectErr := none,
    killErr := none, output := ⟨some 0, "", ""⟩ }

/-- Witness for C6 at a concrete backend with lfs enabled, an oracle that
lets every child succeed, and a concrete one-element refspec list. -/
theorem c6_push_mirror_commands_witness :
    Gm.git.Git.git_push_mirror
      { executable := "git", lfs_enabled := true, timeout := none }
      (fun _ => Gm.ex.b_ok) "d" "/m/o" (some ["main"]) true =
    (.ok (),
      [{ program := "git", envs := [("GIT_TERMINAL_PROMPT", "0")],
         args := ["lfs", "install"], cwd := some "/m/o" },
       { program := "git", envs := [("GIT_TERMINAL_PROMPT", "0")],
         args := ["-c", "lfs.url=d", "push", "-f", "d", "main"],
         cwd := some "/m/o" }]) := by
  have h := (c6_push_mirror_commands
    { executable := "git", lfs_enabled := true, timeout := none }
    (fun _ => Gm.ex.b_ok) "d" "/m/o" (some ["main"]) true).2.2.1
    (by decide) (by decide)
  rw [h]
  decide

/-- Claim C10: in main.rs's mirror_repo, the success check after git
remote update reads the set-url command's status (out.status) instead of
the update command's (out2.status); hence whenever set-url succeeds and
remote update exits non-zero, the failure goes undetected, the job
proceeds to run the push command, and the overall result is decided by
the push alone. -/
theorem c10_main_update_status_unchecked (mirror_dir origin destination : String)
    (w : Gm.main.MainWorld)
    (h1 : w.dir_create_err = none) (h2 : w.path_kind = .dir)
    (h3 : w.set_url.spawn_err = none) (h4 : w.set_url.success = true)
    (h5 : w.remote_update.spawn_err = none)
    (h6 : w.remote_update.success = false) :
    Gm.main.MOp.push ∈
      (Gm.main.mirror_repo mirror_dir origin destination w).2 ∧
    (Gm.main.mirror_repo mirror_dir origin destination w).2 =
      [.set_url, .remote_update, .push] ∧
    (w.push.spawn_err = none → w.push.success = true →
      (Gm.main.mirror_repo mirror_dir origin destination w).1 = .ok 1) := by
  obtain ⟨dce, pk, su, ru, cl, pu⟩ := w
  simp only at h1 h2 h3 h4 h5 h6
  subst h1
  subst h2
  obtain ⟨sue, sus, sust⟩ := su
  obtain ⟨rue, rus, rust⟩ := ru
  obtain ⟨pue, pus, pust⟩ := pu
  simp only at h3 h4 h5 h6
  subst h3
  subst h4
  subst h5
  subst h6
  rcases pue with _ | s <;> rcases pus <;>
    simp_all [Gm.main.mirror_repo]

/-- Sample main.rs world: directory exists, set-url succeeds, remote
update exits non-zero, push succeeds. -/
def Gm.ex.w_main_bad_update : Gm.main.MainWorld :=
  { dir_create_err := none, path_kind := .dir,
    set_url := { spawn_err := none, success := true, status_str := "exit code: 0" },
    remote_update := { spawn_err := none, success := false, status_str := "exit code: 1" },
    clone := { spawn_err := none, success := true, status_str := "exit code: 0" },
    push := { spawn_err := none, success := true, status_str := "exit code: 0" } }

/-- Witness for C10 at a concrete job where remote update failed and yet
the push ran and the job reported success. -/
theorem c10_main_update_status_unchecked_witness :
    Gm.main.MOp.push ∈
      (Gm.main.mirror_repo "/m" "o" "d" Gm.ex.w_main_bad_update).2 ∧
    (Gm.main.mirror_repo "/m" "o" "d" Gm.ex.w_main_bad_update).2 =
      [.set_url, .remote_update, .push] ∧
    (Gm.ex.w_main_bad_update.push.spawn_err = none →
      Gm.ex.w_main_bad_update.push.success = true →
      (Gm.main.mirror_repo "/m" "o" "d" Gm.ex.w_main_bad_update).1 = .ok 1) :=
  c10_main_update_status_unchecked "/m" "o" "d" Gm.ex.w_main_bad_update
    rfl rfl rfl rfl rfl rfl

/-- Number of ParseError (Description) entries in a job list. -/
def Gm.lib.parse_error_count (v : List Gm.lib.Job) : Nat :=
  (v.filter (fun j => match j.entry with
    | .error (.description _ _) => true
    | _ => false)).length

/-- Each job's counter contribution adds one to total. -/
theorem Gm.lib.bump_total (c : Gm.lib.Counters) (k : Gm.lib.Cls) :
    (Gm.lib.bump c k).total = c.total + 1 := by
  cases k <;> rfl

/-- Each job's counter contribution adds one to the ok-fail-timeout-skip
sum. -/
theorem Gm.lib.bump_sum (c : Gm.lib.Counters) (k : Gm.lib.Cls) :
    (Gm.lib.bump c k).ok + (Gm.lib.bump c k).fail +
      (Gm.lib.bump c k).timeout + (Gm.lib.bump c k).skip =
    c.ok + c.fail + c.timeout + c.skip + 1 := by
  cases k <;> simp [Gm.lib.bump] <;> omega

/-- The counter fold adds the job count to total. -/
theorem Gm.lib.fold_total (opts : Gm.lib.MirrorOptions) (v : List Gm.lib.Job) :
    ∀ c : Gm.lib.Counters,
      (v.foldl (fun c j => Gm.lib.bump c (Gm.lib.classify opts j).1) c).total =
        c.total + v.length := by
  induction v with
  | nil => intro c; simp
  | cons j v ih =>
    intro c
    simp only [List.foldl_cons, List.length_cons, ih, Gm.lib.bump_total]
    omega

/-- The counter fold adds the job count to the ok-fail-timeout-skip sum. -/
theorem Gm.lib.fold_sum (opts : Gm.lib.MirrorOptions) (v : List Gm.lib.Job) :
    ∀ c : Gm.lib.Counters,
      (v.foldl (fun c j => Gm.lib.bump c (Gm.lib.classify opts j).1) c).ok +
      (v.foldl (fun c j => Gm.lib.bump c (Gm.lib.classify opts j).1) c).fail +
      (v.foldl (fun c j => Gm.lib.bump c (Gm.lib.classify opts j).1) c).timeout +
      (v.foldl (fun c j => Gm.lib.bump c (Gm.lib.classify opts j).1) c).skip =
        c.ok + c.fail + c.timeout + c.skip + v.length := by
  induction v with
  | nil => intro c; simp
  | cons j v ih =>
    intro c
    simp only [List.foldl_cons, List.length_cons, ih, Gm.lib.bump_sum]
    omega

/-- Claim C5 (amended): each job increments total exactly once at START
and exactly one of ok, fail, timeout, skip at terminal classification, so
total equals the job count and total = ok + fail + timeout + skip (with
skip covering both SkipReason and parse-error entries, which is why no
separate parse_error_count term appears); a sync error classifies as
timeout exactly when its root cause is a git Timeout, else as fail. -/
theorem c5_counters (opts : Gm.lib.MirrorOptions) (v : List Gm.lib.Job) :
    ((Gm.lib.run_sync_task opts v).1.total = v.length) ∧
    ((Gm.lib.run_sync_task opts v).1.total =
      (Gm.lib.run_sync_task opts v).1.ok +
      (Gm.lib.run_sync_task opts v).1.fail +
      (Gm.lib.run_sync_task opts v).1.timeout +
      (Gm.lib.run_sync_task opts v).1.skip) ∧
    (∀ j : Gm.lib.Job, ∀ e, j.entry = .error e →
      (Gm.lib.classify opts j).1 = .skip) ∧
    (∀ j : Gm.lib.Job, ∀ m, j.entry = .ok m → ∀ e,
      (Gm.lib.mirror_repo m.origin m.destination
        (match m.refspec with
         | some _ => m.refspec
         | none => opts.refspec) m.lfs opts j.world).1 = .error e →
      (Gm.lib.classify opts j).1 =
        if Gm.lib.is_timeout_err e then .timeout else .fail) := by
  refine ⟨?_, ?_, ?_, ?_⟩
  · simpa using Gm.lib.fold_total opts v ⟨0, 0, 0, 0, 0⟩
  · have h1 := Gm.lib.fold_total opts v ⟨0, 0, 0, 0, 0⟩
    have h2 := Gm.lib.fold_sum opts v ⟨0, 0, 0, 0, 0⟩
    simp only [Gm.lib.run_sync_task]
    simp at h1 h2
    omega
  · intro j e hj
    rcases e with ⟨u, s⟩ | u <;> simp [Gm.lib.classify, hj]
  · intro j m hj e hres
    simp [Gm.lib.classify, hj, hres]

/-- Witness for C5 on a concrete three-job run (one success, one skip, one
parse error). -/
theorem c5_counters_witness :
    ((Gm.lib.run_sync_task Gm.ex.opts_plain
      [⟨.ok ⟨"o", "d", none, false⟩, Gm.ex.w_ok⟩,
       ⟨.error (.skip "https://forge/p"), Gm.ex.w_ok⟩,
       ⟨.error (.description "https://forge/q" "bad"), Gm.ex.w_ok⟩]).1.total = 3) ∧
    ((Gm.lib.run_sync_task Gm.ex.opts_plain
      [⟨.ok ⟨"o", "d", none, false⟩, Gm.ex.w_ok⟩,
       ⟨.error (.skip "https://forge/p"), Gm.ex.w_ok⟩,
       ⟨.error (.description "https://forge/q" "bad"), Gm.ex.w_ok⟩]).1 =
      ⟨3, 2, 0, 0, 1⟩) ∧
    (Gm.lib.classify Gm.ex.opts_plain
      ⟨.error (.description "https://forge/q" "bad"), Gm.ex.w_ok⟩).1 = .skip :=
  ⟨(c5_counters Gm.ex.opts_plain _).1,
   by decide,
   (c5_counters Gm.ex.opts_plain []).2.2.1
     ⟨.error (.description "https://forge/q" "bad"), Gm.ex.w_ok⟩
     (.description "https://forge/q" "bad") rfl⟩

/-- Sample job: a parse-error entry. -/
def Gm.ex.job_parse : Gm.lib.Job :=
  { entry := .error (.description "https://forge/p" "mapping expected"),
    world := Gm.ex.w_ok }

/-- Counterexample to C5 as stated: a run with a single parse-error entry
has total 1 and skip 1 and parse_error_count 1, so the claimed identity
total = ok + fail + timeout + skip + parse_error_count fails (parse
errors already count inside skip). -/
theorem c5_counters_counterexample :
    (Gm.lib.run_sync_task Gm.ex.opts_plain [Gm.ex.job_parse]).1 =
      ⟨1, 1, 0, 0, 0⟩ ∧
    Gm.lib.parse_error_count [Gm.ex.job_parse] = 1 ∧
    (Gm.lib.run_sync_task Gm.ex.opts_plain [Gm.ex.job_parse]).1.total ≠
      (Gm.lib.run_sync_task Gm.ex.opts_plain [Gm.ex.job_parse]).1.ok +
      (Gm.lib.run_sync_task Gm.ex.opts_plain [Gm.ex.job_parse]).1.fail +
      (Gm.lib.run_sync_task Gm.ex.opts_plain [Gm.ex.job_parse]).1.timeout +
      (Gm.lib.run_sync_task Gm.ex.opts_plain [Gm.ex.job_parse]).1.skip +
      Gm.lib.parse_error_count [Gm.ex.job_parse] := by
  decide

/-- Claim C2 (amended): skips alone are not failures. For every run in
which every outcome is Success or Skipped (no sync errors and no parse
errors), do_mirror returns Ok even when fail_on_sync_error is set. (As
stated the claim also exempted parse errors, but a parse error produces
an error-kind suite record and so fails the run when fail_on_sync_error
is set; see the counterexample.) -/
theorem c2_skips_are_not_failures (opts : Gm.lib.MirrorOptions)
    (v : List Gm.lib.Job)
    (h : ∀ j ∈ v, (Gm.lib.classify opts j).2.kind = .success ∨
      (Gm.lib.classify opts j).2.kind = .skipped) :
    Gm.lib.do_mirror_result opts v = .ok () := by
  have he : Gm.lib.suite_errors (Gm.lib.run_sync_task opts v).2 = 0 := by
    unfold Gm.lib.suite_errors Gm.lib.run_sync_task
    rw [List.length_eq_zero, List.filter_eq_nil_iff]
    intro t ht
    rcases List.mem_map.mp ht with ⟨j, hj, rfl⟩
    rcases h j hj with hk | hk <;> simp [hk]
  have hf : Gm.lib.suite_failures (Gm.lib.run_sync_task opts v).2 = 0 := by
    unfold Gm.lib.suite_failures Gm.lib.run_sync_task
    rw [List.length_eq_zero, List.filter_eq_nil_iff]
    intro t ht
    rcases List.mem_map.mp ht with ⟨j, hj, rfl⟩
    rcases h j hj with hk | hk <;> simp [hk]
  simp [Gm.lib.do_mirror_result, he, hf]

/-- Witness for C2 on a concrete run of one success and one skip under
fail_on_sync_error. -/
theorem c2_skips_are_not_failures_witness :
    Gm.ex.opts_fose.fail_on_sync_error = true ∧
    Gm.lib.do_mirror_result Gm.ex.opts_fose
      [⟨.ok ⟨"o", "d", none, false⟩, Gm.ex.w_ok⟩,
       ⟨.error (.skip "https://forge/p"), Gm.ex.w_ok⟩] = .ok () :=
  ⟨by decide,
    c2_skips_are_not_failures Gm.ex.opts_fose
      [⟨.ok ⟨"o", "d", none, false⟩, Gm.ex.w_ok⟩,
       ⟨.error (.skip "https://forge/p"), Gm.ex.w_ok⟩]
      (by decide)⟩

/-- Counterexample to C2 as stated: a run whose only non-Success outcome
is a parse-error entry, with fail_on_sync_error set, makes do_mirror
return SyncError 1 (exit 1) instead of Ok. -/
theorem c2_parse_error_fails_run :
    ([Gm.ex.job_parse].map (fun j => j.entry) =
      [.error (.description "https://forge/p" "mapping expected")]) ∧
    Gm.ex.opts_fose.fail_on_sync_error = true ∧
    Gm.lib.do_mirror_result Gm.ex.opts_fose [Gm.ex.job_parse] =
      .error (.syncError 1) := by
  decide

/-- Claim C3 (amended): for every GitLab project whose description parses
with skip=false, the provider emits Mirror with origin and flat taken
from the description (flat defaulting to false) and destination the
project's SSH URL unless use_http is set (then the HTTP clone URL); this
provider's Desc reads no refspec and no lfs field. A description that
parses to skip=true yields a Skip entry; any parse failure — in
particular a missing origin — yields a Description (parse-error) entry
with the project web URL. -/
theorem c3_gitlab_mirror_fields (use_http : Bool) (p : Gm.gitlab.Project) :
    (∀ desc, Gm.gitlab.parse_desc p.description = .ok desc →
      desc.skip = false →
      Gm.gitlab.process_projects use_http [p] =
        [.ok { origin := desc.origin,
               destination :=
                 if use_http then p.http_url_to_repo else p.ssh_url_to_repo,
               flat := desc.flat }]) ∧
    (∀ desc, Gm.gitlab.parse_desc p.description = .ok desc →
      desc.skip = true →
      Gm.gitlab.process_projects use_http [p] = [.error (.skip p.web_url)]) ∧
    (∀ e, Gm.gitlab.parse_desc p.description = .error e →
      Gm.gitlab.process_projects use_http [p] =
        [.error (.description p.web_url e)]) ∧
    (∀ m, p.description = .mapping m → Gm.yaml.ylookup m "origin" = none →
      Gm.gitlab.process_projects use_http [p] =
        [.error (.description p.web_url ("missing field " ++ "origin"))]) := by
  refine ⟨?_, ?_, ?_, ?_⟩
  · intro desc hp hskip
    simp [Gm.gitlab.process_projects, hp, hskip]
  · intro desc hp hskip
    simp [Gm.gitlab.process_projects, hp, hskip]
  · intro e hp
    simp [Gm.gitlab.process_projects, hp]
  · intro m hm hlook
    simp [Gm.gitlab.process_projects, Gm.gitlab.parse_desc, hm,
      Gm.yaml.req_string, hlook, Bind.bind, Except.bind]

/-- Witness for C3 at a concrete project whose description carries origin,
skip=false and flat=true. -/
theorem c3_gitlab_mirror_fields_witness :
    Gm.gitlab.parse_desc (.mapping [("origin", .ystr "ssh://u@a/x.git"),
        ("flat", .ybool true)]) = .ok ⟨"ssh://u@a/x.git", false, true⟩ ∧
    Gm.gitlab.process_projects false
      [{ description := .mapping [("origin", .ystr "ssh://u@a/x.git"),
           ("flat", .ybool true)],
         web_url := "https://gl/p", ssh_url_to_repo := "git@gl:p.git",
         http_url_to_repo := "https://gl/p.git" }] =
      [.ok { origin := "ssh://u@a/x.git", destination := "git@gl:p.git",
             flat := true }] :=
  ⟨by decide,
    by
      have h := (c3_gitlab_mirror_fields false
        { description := .mapping [("origin", .ystr "ssh://u@a/x.git"),
            ("flat", .ybool true)],
          web_url := "https://gl/p", ssh_url_to_repo := "git@gl:p.git",
          http_url_to_repo := "https://gl/p.git" }).1
        ⟨"ssh://u@a/x.git", false, true⟩ (by decide) rfl
      simpa using h⟩

/-- Sample GitLab project whose description carries lfs=true and
refspec=[r1] besides origin. -/
def Gm.ex.pl1 : Gm.gitlab.Project :=
  { description := .mapping [("origin", .ystr "o"), ("lfs", .ybool true),
      ("refspec", .ylist ["r1"])],
    web_url := "https://gl/p", ssh_url_to_repo := "git@gl:p.git",
    http_url_to_repo := "https://gl/p.git" }

/-- Sample GitLab project identical to pl1 except lfs=false and
refspec=[r2]. -/
def Gm.ex.pl2 : Gm.gitlab.Project :=
  { description := .mapping [("origin", .ystr "o"), ("lfs", .ybool false),
      ("refspec", .ylist ["r2"])],
    web_url := "https://gl/p", ssh_url_to_repo := "git@gl:p.git",
    http_url_to_repo := "https://gl/p.git" }

/-- Counterexample to C3 as stated: two projects whose descriptions parse
with skip=false and differ in their lfs and refspec fields produce
identical provider output, so the emitted mirror does not carry refspec
or lfs from the description (this provider's Desc has origin, skip and
flat only). -/
theorem c3_gitlab_ignores_refspec_lfs :
    Gm.yaml.ylookup [("origin", .ystr "o"), ("lfs", .ybool true),
        ("refspec", .ylist ["r1"])] "lfs" = some (.ybool true) ∧
    Gm.yaml.ylookup [("origin", .ystr "o"), ("lfs", .ybool false),
        ("refspec", .ylist ["r2"])] "lfs" = some (.ybool false) ∧
    Gm.yaml.ylookup [("origin", .ystr "o"), ("lfs", .ybool true),
        ("refspec", .ylist ["r1"])] "refspec" = some (.ylist ["r1"]) ∧
    Gm.yaml.ylookup [("origin", .ystr "o"), ("lfs", .ybool false),
        ("refspec", .ylist ["r2"])] "refspec" = some (.ylist ["r2"]) ∧
    Gm.gitlab.parse_desc Gm.ex.pl1.description = .ok ⟨"o", false, false⟩ ∧
    Gm.gitlab.parse_desc Gm.ex.pl2.description = .ok ⟨"o", false, false⟩ ∧
    Gm.gitlab.process_projects false [Gm.ex.pl1] =
      Gm.gitlab.process_projects false [Gm.ex.pl2] := by
  decide

/-- Claim C7 (amended): for every GitHub project whose description fails
to parse, the provider does not fail the run; it logs a warning and emits
no entry at all for that project (its Vec<Mirror> result type has no
error entries, so no ParseError reaches the engine). -/
theorem c7_github_bad_desc_omitted (use_http : Bool) (p : Gm.github.Project)
    (rest : List Gm.github.Project) (e : String)
    (h : Gm.github.parse_desc (p.description.getD (.mapping [])) = .error e) :
    Gm.github.get_mirror_repos use_http (.ok (p :: rest)) =
      .ok (Gm.github.process_projects use_http rest) := by
  simp [Gm.github.get_mirror_repos, Gm.github.process_projects, h]

/-- Sample GitHub project with an unparsable description. -/
def Gm.ex.pg_bad : Gm.github.Project :=
  { description := some (.malformed "invalid yaml"),
    url := "https://gh/p", ssh_url := "git@gh:p.git",
    clone_url := "https://gh/p.git" }

/-- Witness for C7 at a concrete project with a malformed description. -/
theorem c7_github_bad_desc_omitted_witness :
    Gm.github.get_mirror_repos false (.ok [Gm.ex.pg_bad]) =
      .ok (Gm.github.process_projects false []) :=
  c7_github_bad_desc_omitted false Gm.ex.pg_bad [] "invalid yaml" (by decide)

/-- Counterexample to C7 as stated: a run whose single project has an
unparsable description succeeds with an empty mirror list — no ParseError
entry carrying the project URL and cause is routed to the engine. -/
theorem c7_github_no_parse_error_entry :
    Gm.github.parse_desc (Gm.ex.pg_bad.description.getD (.mapping [])) =
      .error "invalid yaml" ∧
    Gm.github.get_mirror_repos false (.ok [Gm.ex.pg_bad]) = .ok [] := by
  decide

/-- The items a page contributes: the parsed body of a successful
response, else nothing (error pages abort the loop before contributing). -/
def Gm.gitlab.page_items {α : Type} :
    Except String (Gm.gitlab.Response α) → List α
  | .ok r =>
    match r.body with
    | .ok items => items
    | .error _ => []
  | .error _ => []

/-- The pagination loop requests consecutive pages from its start page and,
on success, returns the concatenation of the visited pages' items in page
order; the number of visited pages is bounded by the fuel. -/
theorem Gm.gitlab.get_paged_go_spec {α : Type} (url : String)
    (fetch : Nat → Except String (Gm.gitlab.Response α)) :
    ∀ fuel page : Nat, ∃ k, k ≤ fuel ∧
      (Gm.gitlab.get_paged_go url fetch fuel page).2 =
        (List.range' page k).map (Gm.gitlab.page_url url) ∧
      ∀ l, (Gm.gitlab.get_paged_go url fetch fuel page).1 = .ok l →
        l = ((List.range' page k).map
          (fun i => Gm.gitlab.page_items (fetch i))).flatten := by
  intro fuel
  induction fuel with
  | zero =>
    intro page
    refine ⟨0, Nat.le_refl 0, by simp [Gm.gitlab.get_paged_go], ?_⟩
    intro l hl
    simp [Gm.gitlab.get_paged_go] at hl
    simp [← hl]
  | succ fuel ih =>
    intro page
    rcases hf : fetch page with e | res
    · refine ⟨1, by omega, ?_, ?_⟩
      · simp [Gm.gitlab.get_paged_go, hf, List.range'_succ]
      · intro l hl
        simp [Gm.gitlab.get_paged_go, hf] at hl
    · by_cases hst : res.status = 200
      · rcases hb : res.body with eb | items
        · refine ⟨1, by omega, ?_, ?_⟩
          · simp [Gm.gitlab.get_paged_go, hf, hst, hb, List.range'_succ]
          · intro l hl
            simp [Gm.gitlab.get_paged_go, hf, hst, hb] at hl
        · rcases hx : res.x_next_page with _ | n
          · refine ⟨1, by omega, ?_, ?_⟩
            · simp [Gm.gitlab.get_paged_go, hf, hst, hb, hx, List.range'_succ]
            · intro l hl
              simp [Gm.gitlab.get_paged_go, hf, hst, hb, hx] at hl
              simp [← hl, List.range'_succ, Gm.gitlab.page_items, hf, hb]
          · by_cases hn : n = ""
            · refine ⟨1, by omega, ?_, ?_⟩
              · simp [Gm.gitlab.get_paged_go, hf, hst, hb, hx, hn,
                  List.range'_succ]
              · intro l hl
                simp [Gm.gitlab.get_paged_go, hf, hst, hb, hx, hn] at hl
                simp [← hl, List.range'_succ, Gm.gitlab.page_items, hf, hb]
            · obtain ⟨k, hk, hurls, hok⟩ := ih (page + 1)
              rcases hrec : Gm.gitlab.get_paged_go url fetch fuel (page + 1)
                with ⟨r1, urls1⟩
              rw [hrec] at hurls hok
              rcases r1 with re | rl
              · refine ⟨k + 1, by omega, ?_, ?_⟩
                · simp [Gm.gitlab.get_paged_go, hf, hst, hb, hx, hn, hrec,
                    List.range'_succ]
                  simpa using hurls
                · intro l hl
                  simp [Gm.gitlab.get_paged_go, hf, hst, hb, hx, hn, hrec] at hl
              · refine ⟨k + 1, by omega, ?_, ?_⟩
                · simp [Gm.gitlab.get_paged_go, hf, hst, hb, hx, hn, hrec,
                    List.range'_succ]
                  simpa using hurls
                · intro l hl
                  simp [Gm.gitlab.get_paged_go, hf, hst, hb, hx, hn, hrec] at hl
                  rw [List.range'_succ]
                  simp [Gm.gitlab.page_items, hf, hb, ← hl, hok rl rfl]
      · refine ⟨1, by omega, ?_, ?_⟩
        · simp [Gm.gitlab.get_paged_go, hf, hst, List.range'_succ]
        · intro l hl
          simp [Gm.gitlab.get_paged_go, hf, hst] at hl
          split at hl <;> simp_all

/-- The pagination loop only ever consults the fetch oracle at the pages
within its fuel window: two oracles that agree there give identical
results. -/
theorem Gm.gitlab.get_paged_go_congr {α : Type} (url : String)
    (f g : Nat → Except String (Gm.gitlab.Response α)) :
    ∀ fuel page : Nat, (∀ n, page ≤ n → n < page + fuel → f n = g n) →
      Gm.gitlab.get_paged_go url f fuel page =
        Gm.gitlab.get_paged_go url g fuel page := by
  intro fuel
  induction fuel with
  | zero => intro page h; rfl
  | succ fuel ih =>
    intro page h
    have hfg : f page = g page := h page (Nat.le_refl page) (by omega)
    have hrec : Gm.gitlab.get_paged_go url f fuel (page + 1) =
        Gm.gitlab.get_paged_go url g fuel (page + 1) :=
      ih (page + 1) (fun n h1 h2 => h n (by omega) (by omega))
    simp only [Gm.gitlab.get_paged_go, hfg, hrec]

/-- Claim C8: get_paged requests url?per_page=100&page=N for consecutive
pages N starting at 1, visiting at most u32::MAX - 1 pages (the Rust
range 1..u32::MAX), so its result is determined by the responses within
that bound for every response sequence — it terminates — and on success
the result is the concatenation of each visited page's parsed JSON list,
in page order. -/
theorem c8_get_paged_pagination {α : Type} (url : String)
    (fetch : Nat → Except String (Gm.gitlab.Response α)) :
    (∃ k, k ≤ Gm.gitlab.u32_max - 1 ∧
      (Gm.gitlab.get_paged url fetch).2 =
        (List.range' 1 k).map (Gm.gitlab.page_url url) ∧
      ∀ l, (Gm.gitlab.get_paged url fetch).1 = .ok l →
        l = ((List.range' 1 k).map
          (fun i => Gm.gitlab.page_items (fetch i))).flatten) ∧
    (∀ fetch2, (∀ n, 1 ≤ n → n ≤ Gm.gitlab.u32_max - 1 → fetch n = fetch2 n) →
      Gm.gitlab.get_paged url fetch = Gm.gitlab.get_paged url fetch2) := by
  constructor
  · exact Gm.gitlab.get_paged_go_spec url fetch (Gm.gitlab.u32_max - 1) 1
  · intro fetch2 h
    exact Gm.gitlab.get_paged_go_congr url fetch fetch2 (Gm.gitlab.u32_max - 1) 1
      (fun n h1 h2 => h n h1 (by omega))

/-- Sample fetch oracle: page 1 announces a next page and carries [10];
every further page carries [20] with no next page. -/
def Gm.ex.fetch2 : Nat → Except String (Gm.gitlab.Response Nat) := fun n =>
  if n = 1 then .ok { status := 200, x_next_page := some "2", body := .ok [10] }
  else .ok { status := 200, x_next_page := none, body := .ok [20] }

/-- Witness for C8 at a concrete two-page response sequence: the loop
requests pages 1 and 2 and concatenates their bodies, and the theorem's
conclusions hold at this input. -/
theorem c8_get_paged_pagination_witness :
    Gm.gitlab.get_paged "https://gl/api/v4/groups/g/projects" Gm.ex.fetch2 =
      (.ok [10, 20],
        ["https://gl/api/v4/groups/g/projects?per_page=100&page=1",
         "https://gl/api/v4/groups/g/projects?per_page=100&page=2"]) ∧
    (∃ k, k ≤ Gm.gitlab.u32_max - 1 ∧
      (Gm.gitlab.get_paged "https://gl/api/v4/groups/g/projects"
        Gm.ex.fetch2).2 =
        (List.range' 1 k).map
          (Gm.gitlab.page_url "https://gl/api/v4/groups/g/projects") ∧
      ∀ l, (Gm.gitlab.get_paged "https://gl/api/v4/groups/g/projects"
          Gm.ex.fetch2).1 = .ok l →
        l = ((List.range' 1 k).map
          (fun i => Gm.gitlab.page_items (Gm.ex.fetch2 i))).flatten) ∧
    Gm.gitlab.get_paged "https://gl/api/v4/groups/g/projects" Gm.ex.fetch2 =
      Gm.gitlab.get_paged "https://gl/api/v4/groups/g/projects" Gm.ex.fetch2 :=
  ⟨by decide,
    (c8_get_paged_pagination "https://gl/api/v4/groups/g/projects"
      Gm.ex.fetch2).1,
    (c8_get_paged_pagination "https://gl/api/v4/groups/g/projects"
      Gm.ex.fetch2).2 Gm.ex.fetch2 (fun _ _ _ => rfl)⟩
